import Mathlib

/-!
Verification of the expense-tracker service layer (FastAPI/SQLAlchemy
application) against its natural-language specification.

The Python services are shallowly embedded: the relational store is a record
of entity-row lists, SQLAlchemy query chains become explicit list filters in
the exact order the code applies them, and monetary `Decimal` columns are
represented as scaled integers (cents).  Calendar dates are a year/month/day
record ordered lexicographically (chronological order for valid dates), with
the civil-from-days / days-from-civil conversions used by PostgreSQL-style
week truncation.
-/

namespace ExpenseTracker

/-- A calendar date (`DATE` column).  `year` is an integer to keep the
    days-from-civil arithmetic total; `month`/`day` are 1-based. -/
structure Date where
  year : Int
  month : Nat
  day : Nat
deriving DecidableEq, Repr

/-- Strict chronological comparison, lexicographic on (year, month, day). -/
def Date.ltB (a b : Date) : Bool :=
  if a.year = b.year then
    if a.month = b.month then decide (a.day < b.day)
    else decide (a.month < b.month)
  else decide (a.year < b.year)

/-- Non-strict chronological comparison (SQL `<=` on dates). -/
def Date.leB (a b : Date) : Bool :=
  a = b || Date.ltB a b

/-- Days since 1970-01-01 for a civil date (Howard Hinnant's algorithm, the
    arithmetic PostgreSQL-style date truncation is based on). -/
def Date.toDays (d : Date) : Int :=
  let y : Int := if d.month ≤ 2 then d.year - 1 else d.year
  let era : Int := Int.fdiv y 400
  let yoe : Int := y - era * 400
  let mp : Nat := (d.month + 9) % 12
  let doy : Int := (153 * (mp : Int) + 2) / 5 + (d.day : Int) - 1
  let doe : Int := yoe * 365 + yoe / 4 - yoe / 100 + doy
  era * 146097 + doe - 719468

/-- Civil date for a count of days since 1970-01-01 (inverse direction of
    Hinnant's algorithm). -/
def Date.fromDays (z0 : Int) : Date :=
  let z : Int := z0 + 719468
  let era : Int := Int.fdiv z 146097
  let doe : Nat := (z - era * 146097).toNat
  let yoe : Nat := (doe - doe / 1460 + doe / 36524 - doe / 146096) / 365
  let y : Int := (yoe : Int) + era * 400
  let doy : Nat := doe - (365 * yoe + yoe / 4 - yoe / 100)
  let mp : Nat := (5 * doy + 2) / 153
  let dayv : Nat := doy - (153 * mp + 2) / 5 + 1
  let monthv : Nat := if mp < 10 then mp + 3 else mp - 9
  ⟨if monthv ≤ 2 then y + 1 else y, monthv, dayv⟩

/-- Day of week with Monday = 0 (1970-01-01 was a Thursday). -/
def weekdayMon0 (z : Int) : Int := Int.fmod (z + 3) 7

/-- `date_trunc('week', d)`: the Monday starting the ISO week of `d`. -/
def Date.truncWeek (d : Date) : Date :=
  let z := d.toDays
  Date.fromDays (z - weekdayMon0 z)

/-- `date_trunc('month', d)`: first day of the month of `d`. -/
def Date.truncMonth (d : Date) : Date :=
  ⟨d.year, d.month, 1⟩

/-- Zero-pad a numeral to two digits. -/
def pad2 (n : Nat) : String :=
  if n < 10 then "0" ++ toString n else toString n

/-- Zero-pad a numeral to four digits. -/
def pad4 (n : Nat) : String :=
  if n < 10 then "000" ++ toString n
  else if n < 100 then "00" ++ toString n
  else if n < 1000 then "0" ++ toString n
  else toString n

/-- ISO-8601 rendering `YYYY-MM-DD` (`date.isoformat()` in Python). -/
def Date.iso (d : Date) : String :=
  (if d.year < 0 then "-" ++ pad4 (-d.year).toNat else pad4 d.year.toNat)
    ++ "-" ++ pad2 d.month ++ "-" ++ pad2 d.day

/-! ## Data model (src/models)

Monetary `Numeric(15,2)` / `Numeric(10,6)` columns are scaled integers; SQL
sums of integers are exact, matching `Decimal` aggregation.  Timestamps are
abstract tick counts.  Nullable columns are `Option`-typed. -/

/-- Row of the `transactions` table (src/models/transaction.py). -/
structure Transaction where
  transaction_id : Nat
  account_id : Nat
  transaction_type : String
  amount : Int
  currency_code : String
  base_amount : Int
  transaction_date : Date
  status : String
  payee_id : Option Nat
  category_id : Option Nat
  description : Option String
  reference_number : Option String
  exchange_rate : Int
  transfer_account_id : Option Nat
  location : Option String
  notes : Option String
  created_at : Nat
  updated_at : Nat
deriving DecidableEq, Repr

/-- Row of the `accounts` table (src/models/account.py). -/
structure Account where
  account_id : Nat
  account_type_id : Nat
  account_name : String
  currency_code : String
  opening_balance : Int
  current_balance : Int
  account_number : Option String
  institution_name : Option String
  credit_limit : Option Int
  is_closed : Bool
  notes : Option String
  opening_balance_date : Date
  created_at : Nat
  updated_at : Nat
deriving DecidableEq, Repr

/-- Row of the `categories` table (src/models/category.py). -/
structure Category where
  category_id : Nat
  category_name : String
  category_type : String
  category_group : Option String
  color_code : Option String
  icon_name : Option String
  is_active : Bool
  created_at : Nat
deriving DecidableEq, Repr

/-- Row of the `payees` table (src/models/payee.py). -/
structure Payee where
  payee_id : Nat
  payee_name : String
  default_category_id : Option Nat
  notes : Option String
  is_active : Bool
  created_at : Nat
  updated_at : Nat
deriving DecidableEq, Repr

/-- The relational store: the four application tables plus the
    `information_schema.tables` catalog rows (name, type) of the public
    schema, which the schema-introspection service reads. -/
structure Db where
  transactions : List Transaction
  accounts : List Account
  categories : List Category
  payees : List Payee
  catalog_tables : List (String × String)
deriving DecidableEq, Repr

/-! ## Query-building helpers

`optFilter` is the embedding of the pervasive
`if x is not None: query = query.filter(...)` idiom: the filter is appended
to the chain only when the optional parameter is supplied. -/

/-- Conditionally chained `query.filter`. -/
def optFilter {α β : Type} (l : List α) (o : Option β) (g : β → α → Bool) :
    List α :=
  match o with
  | some b => l.filter (g b)
  | none => l

/-- SQL `SUM` over the listed values: `NULL` on an empty set, and the exact
    sum otherwise. -/
def sqlSumInt (l : List Int) : Option Int :=
  match l with
  | [] => none
  | _ => some l.sum

/-! ## `GROUP BY period ORDER BY period` (ascending, duplicate-free keys) -/

/-- Insert a period key into an ascending, duplicate-free key list. -/
def insertPeriod (p : Date) : List Date → List Date
  | [] => [p]
  | q :: rest =>
    if p = q then q :: rest
    else if Date.ltB p q then p :: q :: rest
    else q :: insertPeriod p rest

/-- Distinct grouping keys in ascending order. -/
def sortedPeriods (l : List Date) : List Date :=
  l.foldr insertPeriod []

/-! ## `ORDER BY value DESC` for the breakdown result rows -/

/-- Stable descending insertion by the numeric component. -/
def insertDescByValue (x : String × Int) :
    List (String × Int) → List (String × Int)
  | [] => [x]
  | y :: ys => if x.2 ≥ y.2 then x :: y :: ys else y :: insertDescByValue x ys

/-- Stable sort, numeric component descending with ties kept in input
    order — a deterministic refinement of SQL's tie-unspecified
    `ORDER BY ... DESC`. -/
def sortDescByValue (l : List (String × Int)) : List (String × Int) :=
  l.foldr insertDescByValue []

/-- HTTP outcome of an endpoint handler: a payload, or an error response
    carrying the status code and machine-readable error code. -/
inductive HttpResult (α : Type) where
  | ok (value : α)
  | error (status : Nat) (code : String)
deriving DecidableEq, Repr

/-! ## Analytics service (src/services/analytics_service.py) -/

/-- Optional keyword arguments of `get_summary`. -/
structure SummaryFilters where
  start_date : Option Date
  end_date : Option Date
  transaction_type : Option String
  category_id : Option Nat
  account_id : Option Nat
  payee_id : Option Nat
deriving DecidableEq, Repr

/-- The filter chain `get_summary` builds: base filter
    `transaction_type != 'transfer'` followed by one conditional filter per
    supplied argument, in source order (lines 44-61). -/
def applySummaryFilters (rows : List Transaction) (f : SummaryFilters) :
    List Transaction :=
  let q := rows.filter (fun t => t.transaction_type != "transfer")
  let q := optFilter q f.start_date (fun s t => Date.leB s t.transaction_date)
  let q := optFilter q f.end_date (fun e t => Date.leB t.transaction_date e)
  let q := optFilter q f.transaction_type (fun ty t => t.transaction_type == ty)
  let q := optFilter q f.category_id (fun c t => t.category_id == some c)
  let q := optFilter q f.account_id (fun a t => t.account_id == a)
  optFilter q f.payee_id (fun p t => t.payee_id == some p)

/-- `get_summary`: `(coalesce(sum(base_amount), 0), count(transaction_id))`
    over the filtered rows. -/
def get_summary (db : Db) (f : SummaryFilters) : Int × Nat :=
  let rows := applySummaryFilters db.transactions f
  ((sqlSumInt (rows.map (·.base_amount))).getD 0, rows.length)

/-- Optional keyword arguments of `get_breakdown` — note the source accepts
    no `category_id` or `payee_id` argument. -/
structure BreakdownFilters where
  start_date : Option Date
  end_date : Option Date
  transaction_type : Option String
  account_id : Option Nat
deriving DecidableEq, Repr

/-- The inner join of `Transaction` onto the dimension's entity table
    (`dimension_key == dimension_fk`), paired with the dimension's display
    name; any `dimension` other than "category"/"payee" selects `Account`
    (lines 101-126). -/
def joinRows (db : Db) (dimension : String) : List (Transaction × String) :=
  if dimension = "category" then
    db.transactions.flatMap (fun t =>
      (db.categories.filter (fun c => t.category_id == some c.category_id)).map
        (fun c => (t, c.category_name)))
  else if dimension = "payee" then
    db.transactions.flatMap (fun t =>
      (db.payees.filter (fun p => t.payee_id == some p.payee_id)).map
        (fun p => (t, p.payee_name)))
  else
    db.transactions.flatMap (fun t =>
      (db.accounts.filter (fun a => t.account_id == a.account_id)).map
        (fun a => (t, a.account_name)))

/-- The filters `get_breakdown` applies after the join: the base transfer
    exclusion, the conditional date/type filters, and the account filter
    only when the dimension is not "account" (lines 124-136). -/
def applyBreakdownFilters (rows : List (Transaction × String))
    (dimension : String) (f : BreakdownFilters) :
    List (Transaction × String) :=
  let q := rows.filter (fun r => r.1.transaction_type != "transfer")
  let q := optFilter q f.start_date (fun s r => Date.leB s r.1.transaction_date)
  let q := optFilter q f.end_date (fun e r => Date.leB r.1.transaction_date e)
  let q := optFilter q f.transaction_type
    (fun ty r => r.1.transaction_type == ty)
  if dimension ≠ "account" then
    optFilter q f.account_id (fun a r => r.1.account_id == a)
  else q

/-- `sum(base_amount)` when `metric` is "sum", `count(transaction_id)`
    otherwise (lines 95-99); `NULL`-valued like its SQL counterpart. -/
def metricValue (metric : String) (group : List Transaction) : Option Int :=
  if metric = "sum" then sqlSumInt (group.map (·.base_amount))
  else some (group.length : Int)

/-- `get_breakdown`: join, filter, group by the display name, aggregate with
    the metric, `coalesce` the value to zero, and order value-descending. -/
def get_breakdown (db : Db) (dimension metric : String)
    (f : BreakdownFilters) : List String × List Int :=
  let rows := applyBreakdownFilters (joinRows db dimension) dimension f
  let labels := (rows.map Prod.snd).eraseDups
  let pairs := labels.map (fun lab =>
    (lab, (metricValue metric
            ((rows.filter (fun r => r.2 == lab)).map Prod.fst)).getD 0))
  let sorted := sortDescByValue pairs
  (sorted.map Prod.fst, sorted.map Prod.snd)

/-- Optional keyword arguments of `get_trend`. -/
structure TrendFilters where
  start_date : Option Date
  end_date : Option Date
  transaction_type : Option String
  category_id : Option Nat
  account_id : Option Nat
deriving DecidableEq, Repr

/-- `date_trunc` dispatch of `get_trend` (lines 178-186): "day" keeps the
    date, "week" truncates to the ISO Monday, anything else to the month. -/
def truncateGrain (time_grain : String) (d : Date) : Date :=
  if time_grain = "day" then d
  else if time_grain = "week" then d.truncWeek
  else d.truncMonth

/-- The filter chain `get_trend` builds (lines 189-206). -/
def applyTrendFilters (rows : List Transaction) (f : TrendFilters) :
    List Transaction :=
  let q := rows.filter (fun t => t.transaction_type != "transfer")
  let q := optFilter q f.start_date (fun s t => Date.leB s t.transaction_date)
  let q := optFilter q f.end_date (fun e t => Date.leB t.transaction_date e)
  let q := optFilter q f.transaction_type (fun ty t => t.transaction_type == ty)
  let q := optFilter q f.category_id (fun c t => t.category_id == some c)
  optFilter q f.account_id (fun a t => t.account_id == a)

/-- `get_trend`: filter, group `sum(base_amount)` by the truncated period,
    order by period ascending, and render each period as an ISO date string
    (`row.period.isoformat()`), `NULL` sums rendered as zero. -/
def get_trend (db : Db) (time_grain : String) (f : TrendFilters) :
    List String × List Int :=
  let rows := applyTrendFilters db.transactions f
  let periods := sortedPeriods
    (rows.map (fun t => truncateGrain time_grain t.transaction_date))
  (periods.map Date.iso,
   periods.map (fun p =>
     (sqlSumInt ((rows.filter
        (fun t => truncateGrain time_grain t.transaction_date == p)).map
          (·.base_amount))).getD 0))

/-- Modelled from the spec: the breakdown operation §4.2 describes, taking
    the *same* optional filter set as the summary operation (date range,
    transaction type, category, account, payee) with a filter on the chosen
    dimension's own identity being a no-op.  The join/group/metric/ordering
    pipeline is the code's; only the filter handling follows the spec's
    words.  Selector strings outside {category, payee} fall to the account
    dimension exactly as in the code, so the two functions are comparable
    pointwise. -/
def get_breakdown_spec (db : Db) (dimension metric : String)
    (f : SummaryFilters) : List String × List Int :=
  let rows0 := joinRows db dimension
  let q := rows0.filter (fun r => r.1.transaction_type != "transfer")
  let q := optFilter q f.start_date (fun s r => Date.leB s r.1.transaction_date)
  let q := optFilter q f.end_date (fun e r => Date.leB r.1.transaction_date e)
  let q := optFilter q f.transaction_type
    (fun ty r => r.1.transaction_type == ty)
  let q := if dimension ≠ "category" then
      optFilter q f.category_id (fun c r => r.1.category_id == some c)
    else q
  let q := if dimension ≠ "account" then
      optFilter q f.account_id (fun a r => r.1.account_id == a)
    else q
  let rows := if dimension ≠ "payee" then
      optFilter q f.payee_id (fun p r => r.1.payee_id == some p)
    else q
  let labels := (rows.map Prod.snd).eraseDups
  let pairs := labels.map (fun lab =>
    (lab, (metricValue metric
            ((rows.filter (fun r => r.2 == lab)).map Prod.fst)).getD 0))
  let sorted := sortDescByValue pairs
  (sorted.map Prod.fst, sorted.map Prod.snd)

/-! ## Entity list services (src/services/*.py) -/

/-- Stable insertion by a boolean comparison (embedding of SQL `ORDER BY`
    with a deterministic tie-break). -/
def insertLeB {α : Type} (le : α → α → Bool) (x : α) : List α → List α
  | [] => [x]
  | y :: ys => if le x y then x :: y :: ys else y :: insertLeB le x ys

/-- Stable sort by a boolean comparison. -/
def sortLeB {α : Type} (le : α → α → Bool) (l : List α) : List α :=
  l.foldr (insertLeB le) []

/-- SQL pagination: `OFFSET offset LIMIT limit` (applied in this order by
    the store regardless of the order the query builder calls were made). -/
def paginate {α : Type} (l : List α) (limit offset : Nat) : List α :=
  (l.drop offset).take limit

/-- Optional filter arguments of `list_accounts`. -/
structure AccountListFilters where
  account_type_id : Option Nat
  currency_code : Option String
  is_closed : Option Bool
deriving DecidableEq, Repr

/-- The filter chain of `list_accounts` (account_service.py lines 71-79). -/
def applyAccountListFilters (rows : List Account) (f : AccountListFilters) :
    List Account :=
  let q := optFilter rows f.account_type_id (fun a r => r.account_type_id == a)
  let q := optFilter q f.currency_code (fun c r => r.currency_code == c)
  optFilter q f.is_closed (fun b r => r.is_closed == b)

/-- `list_accounts`: filter, take the total count *before* pagination, then
    paginate (no mandated order). -/
def list_accounts (db : Db) (limit offset : Nat) (f : AccountListFilters) :
    List Account × Nat :=
  let filtered := applyAccountListFilters db.accounts f
  let total := filtered.length
  (paginate filtered limit offset, total)

/-- Optional filter arguments of `list_categories`. -/
structure CategoryListFilters where
  category_type : Option String
  category_group : Option String
  is_active : Option Bool
deriving DecidableEq, Repr

/-- The filter chain of `list_categories` (category_service.py 70-78). -/
def applyCategoryListFilters (rows : List Category)
    (f : CategoryListFilters) : List Category :=
  let q := optFilter rows f.category_type (fun ty r => r.category_type == ty)
  let q := optFilter q f.category_group
    (fun g r => r.category_group == some g)
  optFilter q f.is_active (fun b r => r.is_active == b)

/-- `list_categories`: filter, count before pagination, order alphabetically
    by name, paginate. -/
def list_categories (db : Db) (limit offset : Nat)
    (f : CategoryListFilters) : List Category × Nat :=
  let filtered := applyCategoryListFilters db.categories f
  let total := filtered.length
  let ordered := sortLeB (fun a b => a.category_name ≤ b.category_name)
    filtered
  (paginate ordered limit offset, total)

/-- `list_payees`: optional `is_active` filter, count before pagination,
    order alphabetically by name, paginate (payee_service.py 48-82). -/
def list_payees (db : Db) (limit offset : Nat) (is_active : Option Bool) :
    List Payee × Nat :=
  let filtered := optFilter db.payees is_active (fun b r => r.is_active == b)
  let total := filtered.length
  let ordered := sortLeB (fun a b => a.payee_name ≤ b.payee_name) filtered
  (paginate ordered limit offset, total)

/-- Optional filter arguments of `list_transactions`. -/
structure TransactionListFilters where
  account_id : Option Nat
  category_id : Option Nat
  payee_id : Option Nat
  transaction_type : Option String
  status : Option String
  start_date : Option Date
  end_date : Option Date
deriving DecidableEq, Repr

/-- The filter chain of `list_transactions`
    (transaction_service.py 152-168). -/
def applyTransactionListFilters (rows : List Transaction)
    (f : TransactionListFilters) : List Transaction :=
  let q := optFilter rows f.account_id (fun a t => t.account_id == a)
  let q := optFilter q f.category_id (fun c t => t.category_id == some c)
  let q := optFilter q f.payee_id (fun p t => t.payee_id == some p)
  let q := optFilter q f.transaction_type
    (fun ty t => t.transaction_type == ty)
  let q := optFilter q f.status (fun s t => t.status == s)
  let q := optFilter q f.start_date (fun s t => Date.leB s t.transaction_date)
  optFilter q f.end_date (fun e t => Date.leB t.transaction_date e)

/-- `getattr(Transaction, sort, Transaction.transaction_date)`: the sort key
    comparison, falling back to `transaction_date` for any name outside the
    model's sortable columns modelled here. -/
def txnSortLeB (sort : String) (a b : Transaction) : Bool :=
  if sort = "amount" then decide (a.amount ≤ b.amount)
  else if sort = "created_at" then decide (a.created_at ≤ b.created_at)
  else Date.leB a.transaction_date b.transaction_date

/-- `list_transactions`: filter, count before pagination, order by the
    selected field and direction, paginate (transaction_service.py
    151-186). -/
def list_transactions (db : Db) (f : TransactionListFilters)
    (sort order : String) (limit offset : Nat) : List Transaction × Nat :=
  let filtered := applyTransactionListFilters db.transactions f
  let total := filtered.length
  let ordered :=
    if order = "asc" then sortLeB (txnSortLeB sort) filtered
    else sortLeB (fun a b => txnSortLeB sort b a) filtered
  (paginate ordered limit offset, total)

/-! ## Transactions router (src/routers/transactions.py) -/

/-- The sort-field allow-list of the list endpoint (line 61). -/
def valid_sort_fields : List String := ["transaction_date", "amount", "created_at"]

/-- `GET /transactions` handler: rejects a sort field outside the allow-list
    with a 400 `VALIDATION_ERROR` before the service (and hence any store
    query) runs; otherwise returns the service result (lines 60-101). -/
def list_transactions_endpoint (db : Db) (f : TransactionListFilters)
    (sort order : String) (limit offset : Nat) :
    HttpResult (List Transaction × Nat) :=
  if sort ∉ valid_sort_fields then
    HttpResult.error 400 "VALIDATION_ERROR"
  else
    HttpResult.ok (list_transactions db f sort order limit offset)

/-! ## Update services (src/services/*.py, src/schemas/*.py)

Pydantic update schemas distinguish a field that is absent from the request
body from one explicitly set to `null`: each schema field is
`Option (Option τ)` — the outer layer is "present in the body", the inner
the (nullable) value.  `model_dump(exclude_unset=partial)` becomes `dump`,
producing the list of field assignments the `setattr` loop then applies; the
post-loop ORM attribute state types every updatable column as `Option`
because `setattr` can write `None` into any of them. -/

/-- One field's contribution to `model_dump(exclude_unset=True)`: present
    fields contribute their assignment, absent ones nothing. -/
def optDump {τ A : Type} (o : Option τ) (mk : τ → A) : List A :=
  match o with
  | some v => [mk v]
  | none => []

/-- Attribute state of a `Category` ORM object while being updated. -/
structure CategoryState where
  category_id : Nat
  category_name : Option String
  category_type : Option String
  category_group : Option String
  color_code : Option String
  icon_name : Option String
  is_active : Option Bool
  created_at : Nat
deriving DecidableEq, Repr

/-- Attribute state of a stored `Category` row. -/
def Category.state (c : Category) : CategoryState :=
  ⟨c.category_id, some c.category_name, some c.category_type,
   c.category_group, c.color_code, c.icon_name, some c.is_active,
   c.created_at⟩

/-- `CategoryUpdate` request schema (src/schemas/category.py). -/
structure CategoryUpdate where
  category_name : Option (Option String)
  category_type : Option (Option String)
  category_group : Option (Option String)
  color_code : Option (Option String)
  icon_name : Option (Option String)
  is_active : Option (Option Bool)
deriving DecidableEq, Repr

/-- A single `setattr(category, field, value)` step. -/
inductive CategoryAssign where
  | category_name (v : Option String)
  | category_type (v : Option String)
  | category_group (v : Option String)
  | color_code (v : Option String)
  | icon_name (v : Option String)
  | is_active (v : Option Bool)
deriving DecidableEq, Repr

def CategoryState.setattr (s : CategoryState) :
    CategoryAssign → CategoryState
  | .category_name v => { s with category_name := v }
  | .category_type v => { s with category_type := v }
  | .category_group v => { s with category_group := v }
  | .color_code v => { s with color_code := v }
  | .icon_name v => { s with icon_name := v }
  | .is_active v => { s with is_active := v }

/-- `model_dump(exclude_unset=excludeUnset)` in schema field order: with
    `exclude_unset=True` only fields present in the request appear; with
    `exclude_unset=False` every schema field appears, absent fields
    contributing their declared default `None`. -/
def CategoryUpdate.dump (u : CategoryUpdate) (excludeUnset : Bool) :
    List CategoryAssign :=
  if excludeUnset then
    optDump u.category_name .category_name
      ++ optDump u.category_type .category_type
      ++ optDump u.category_group .category_group
      ++ optDump u.color_code .color_code
      ++ optDump u.icon_name .icon_name
      ++ optDump u.is_active .is_active
  else
    [.category_name u.category_name.join,
     .category_type u.category_type.join,
     .category_group u.category_group.join,
     .color_code u.color_code.join,
     .icon_name u.icon_name.join,
     .is_active u.is_active.join]

/-- The `for field, value in update_data.items(): setattr(...)` loop of
    `update_category` (category_service.py 120-122); `excludeUnset` renders
    the source's `partial` flag. -/
def update_category_apply (c : Category) (u : CategoryUpdate)
    (excludeUnset : Bool) : CategoryState :=
  (u.dump excludeUnset).foldl CategoryState.setattr c.state

/-- `update_category`: look the row up by id, `None` when absent, otherwise
    the applied update (category_service.py 95-126). -/
def update_category (db : Db) (category_id : Nat) (u : CategoryUpdate)
    (excludeUnset : Bool) : Option CategoryState :=
  match db.categories.find? (fun c => c.category_id == category_id) with
  | none => none
  | some c => some (update_category_apply c u excludeUnset)

/-- `PUT /categories/{id}` passes `partial=False` (categories.py 145). -/
def update_category_put (db : Db) (category_id : Nat) (u : CategoryUpdate) :
    Option CategoryState :=
  update_category db category_id u false

/-- `PATCH /categories/{id}` passes `partial=True` (categories.py 187). -/
def update_category_patch (db : Db) (category_id : Nat)
    (u : CategoryUpdate) : Option CategoryState :=
  update_category db category_id u true

/-- Attribute state of a `Payee` ORM object while being updated. -/
structure PayeeState where
  payee_id : Nat
  payee_name : Option String
  default_category_id : Option Nat
  notes : Option String
  is_active : Option Bool
  created_at : Nat
  updated_at : Nat
deriving DecidableEq, Repr

/-- Attribute state of a stored `Payee` row. -/
def Payee.state (p : Payee) : PayeeState :=
  ⟨p.payee_id, some p.payee_name, p.default_category_id, p.notes,
   some p.is_active, p.created_at, p.updated_at⟩

/-- `PayeeUpdate` request schema (src/schemas/payee.py). -/
structure PayeeUpdate where
  payee_name : Option (Option String)
  default_category_id : Option (Option Nat)
  notes : Option (Option String)
  is_active : Option (Option Bool)
deriving DecidableEq, Repr

/-- A single `setattr(payee, field, value)` step. -/
inductive PayeeAssign where
  | payee_name (v : Option String)
  | default_category_id (v : Option Nat)
  | notes (v : Option String)
  | is_active (v : Option Bool)
deriving DecidableEq, Repr

def PayeeState.setattr (s : PayeeState) : PayeeAssign → PayeeState
  | .payee_name v => { s with payee_name := v }
  | .default_category_id v => { s with default_category_id := v }
  | .notes v => { s with notes := v }
  | .is_active v => { s with is_active := v }

/-- `model_dump(exclude_unset=excludeUnset)` for `PayeeUpdate`. -/
def PayeeUpdate.dump (u : PayeeUpdate) (excludeUnset : Bool) :
    List PayeeAssign :=
  if excludeUnset then
    optDump u.payee_name .payee_name
      ++ optDump u.default_category_id .default_category_id
      ++ optDump u.notes .notes
      ++ optDump u.is_active .is_active
  else
    [.payee_name u.payee_name.join,
     .default_category_id u.default_category_id.join,
     .notes u.notes.join,
     .is_active u.is_active.join]

/-- The `setattr` loop of `update_payee` (payee_service.py 112-114). -/
def update_payee_apply (p : Payee) (u : PayeeUpdate) (excludeUnset : Bool) :
    PayeeState :=
  (u.dump excludeUnset).foldl PayeeState.setattr p.state

/-- `update_payee` (payee_service.py). -/
def update_payee (db : Db) (payee_id : Nat) (u : PayeeUpdate)
    (excludeUnset : Bool) : Option PayeeState :=
  match db.payees.find? (fun p => p.payee_id == payee_id) with
  | none => none
  | some p => some (update_payee_apply p u excludeUnset)

/-- `PUT /payees/{id}` passes `partial=False` (payees.py 149). -/
def update_payee_put (db : Db) (payee_id : Nat) (u : PayeeUpdate) :
    Option PayeeState :=
  update_payee db payee_id u false

/-- `PATCH /payees/{id}` passes `partial=True` (payees.py 202). -/
def update_payee_patch (db : Db) (payee_id : Nat) (u : PayeeUpdate) :
    Option PayeeState :=
  update_payee db payee_id u true

/-- Attribute state of an `Account` ORM object while being updated.  Columns
    absent from `AccountUpdate` — the primary key, `opening_balance`,
    `current_balance`, `opening_balance_date`, the timestamps — can never be
    assigned and keep their stored types. -/
structure AccountState where
  account_id : Nat
  account_type_id : Option Nat
  account_name : Option String
  currency_code : Option String
  opening_balance : Int
  current_balance : Int
  account_number : Option String
  institution_name : Option String
  credit_limit : Option Int
  is_closed : Option Bool
  notes : Option String
  opening_balance_date : Date
  created_at : Nat
  updated_at : Nat
deriving DecidableEq, Repr

/-- Attribute state of a stored `Account` row. -/
def Account.state (a : Account) : AccountState :=
  ⟨a.account_id, some a.account_type_id, some a.account_name,
   some a.currency_code, a.opening_balance, a.current_balance,
   a.account_number, a.institution_name, a.credit_limit, some a.is_closed,
   a.notes, a.opening_balance_date, a.created_at, a.updated_at⟩

/-- `AccountUpdate` request schema (src/schemas/account.py 32-45): no
    `opening_balance`, `opening_balance_date` or `current_balance` field. -/
structure AccountUpdate where
  account_type_id : Option (Option Nat)
  account_name : Option (Option String)
  currency_code : Option (Option String)
  account_number : Option (Option String)
  institution_name : Option (Option String)
  credit_limit : Option (Option Int)
  is_closed : Option (Option Bool)
  notes : Option (Option String)
deriving DecidableEq, Repr

/-- A single `setattr(account, field, value)` step. -/
inductive AccountAssign where
  | account_type_id (v : Option Nat)
  | account_name (v : Option String)
  | currency_code (v : Option String)
  | account_number (v : Option String)
  | institution_name (v : Option String)
  | credit_limit (v : Option Int)
  | is_closed (v : Option Bool)
  | notes (v : Option String)
deriving DecidableEq, Repr

def AccountState.setattr (s : AccountState) : AccountAssign → AccountState
  | .account_type_id v => { s with account_type_id := v }
  | .account_name v => { s with account_name := v }
  | .currency_code v => { s with currency_code := v }
  | .account_number v => { s with account_number := v }
  | .institution_name v => { s with institution_name := v }
  | .credit_limit v => { s with credit_limit := v }
  | .is_closed v => { s with is_closed := v }
  | .notes v => { s with notes := v }

/-- `model_dump(exclude_unset=excludeUnset)` for `AccountUpdate`. -/
def AccountUpdate.dump (u : AccountUpdate) (excludeUnset : Bool) :
    List AccountAssign :=
  if excludeUnset then
    optDump u.account_type_id .account_type_id
      ++ optDump u.account_name .account_name
      ++ optDump u.currency_code .currency_code
      ++ optDump u.account_number .account_number
      ++ optDump u.institution_name .institution_name
      ++ optDump u.credit_limit .credit_limit
      ++ optDump u.is_closed .is_closed
      ++ optDump u.notes .notes
  else
    [.account_type_id u.account_type_id.join,
     .account_name u.account_name.join,
     .currency_code u.currency_code.join,
     .account_number u.account_number.join,
     .institution_name u.institution_name.join,
     .credit_limit u.credit_limit.join,
     .is_closed u.is_closed.join,
     .notes u.notes.join]

/-- The `setattr` loop of `update_account` (account_service.py 115-117). -/
def update_account_apply (a : Account) (u : AccountUpdate)
    (excludeUnset : Bool) : AccountState :=
  (u.dump excludeUnset).foldl AccountState.setattr a.state

/-- `update_account` (account_service.py 90-121). -/
def update_account (db : Db) (account_id : Nat) (u : AccountUpdate)
    (excludeUnset : Bool) : Option AccountState :=
  match db.accounts.find? (fun a => a.account_id == account_id) with
  | none => none
  | some a => some (update_account_apply a u excludeUnset)

/-- `PUT /accounts/{id}` passes `partial=True` (accounts.py 161). -/
def update_account_put (db : Db) (account_id : Nat) (u : AccountUpdate) :
    Option AccountState :=
  update_account db account_id u true

/-- `PATCH /accounts/{id}` passes `partial=True` (accounts.py 216). -/
def update_account_patch (db : Db) (account_id : Nat) (u : AccountUpdate) :
    Option AccountState :=
  update_account db account_id u true

/-! ## Schema introspection (src/services/schema_service.py,
     src/routers/schema.py) -/

/-- `get_all_tables`: the catalog rows of the public schema ordered by table
    name (schema_service.py 22-42). -/
def get_all_tables (db : Db) : List (String × String) :=
  sortLeB (fun a b => a.1 ≤ b.1) db.catalog_tables

/-- Python attribute lookup of `schema_service.get_table_names`: the module
    defines `get_all_tables`, `get_table_columns`, `get_table_constraints`,
    `extract_relationships`, `get_complete_schema`, `get_table_schema`,
    `get_table_relationships` and `get_reference_data`, but no
    `get_table_names`, so the lookup yields nothing. -/
def schema_service_attr_get_table_names : Option (Db → List String) :=
  none

/-- `GET /schema/tables` (schema.py 53-76): the handler calls
    `schema_service.get_table_names(db)`.  Because the attribute does not
    exist, Python raises `AttributeError`, which the handler's generic
    `except Exception` branch converts into a 500 `INTERNAL_ERROR`
    response. -/
def get_table_names_endpoint (db : Db) : HttpResult (List String) :=
  match schema_service_attr_get_table_names with
  | some f => HttpResult.ok (f db)
  | none => HttpResult.error 500 "INTERNAL_ERROR"

/-! ## Independent characterizations of the filtered row sets

Each list below restates, as one conjunction, which rows a query chain
keeps: an absent optional filter constrains nothing, a supplied one must
hold.  The `*_eq` lemmas prove the conditionally-built chains equal to a
single filter by the conjunction. -/

/-- An absent optional filter holds vacuously. -/
def optHolds {β α : Type} (o : Option β) (g : β → α → Bool) (a : α) : Bool :=
  match o with
  | some b => g b a
  | none => true

/-- A transaction matches a summary query iff it is not a transfer and
    satisfies every supplied filter. -/
def summaryMatchB (f : SummaryFilters) (t : Transaction) : Bool :=
  optHolds f.payee_id (fun p t => t.payee_id == some p) t
    && (optHolds f.account_id (fun a t => t.account_id == a) t
    && (optHolds f.category_id (fun c t => t.category_id == some c) t
    && (optHolds f.transaction_type (fun ty t => t.transaction_type == ty) t
    && (optHolds f.end_date (fun e t => Date.leB t.transaction_date e) t
    && (optHolds f.start_date (fun s t => Date.leB s t.transaction_date) t
    && (t.transaction_type != "transfer"))))))

/-- A transaction matches a trend query iff it is not a transfer and
    satisfies every supplied filter. -/
def trendMatchB (f : TrendFilters) (t : Transaction) : Bool :=
  optHolds f.account_id (fun a t => t.account_id == a) t
    && (optHolds f.category_id (fun c t => t.category_id == some c) t
    && (optHolds f.transaction_type (fun ty t => t.transaction_type == ty) t
    && (optHolds f.end_date (fun e t => Date.leB t.transaction_date e) t
    && (optHolds f.start_date (fun s t => Date.leB s t.transaction_date) t
    && (t.transaction_type != "transfer")))))

/-- A transaction matches a list query iff it satisfies every supplied
    filter. -/
def txnListMatchB (f : TransactionListFilters) (t : Transaction) : Bool :=
  optHolds f.end_date (fun e t => Date.leB t.transaction_date e) t
    && (optHolds f.start_date (fun s t => Date.leB s t.transaction_date) t
    && (optHolds f.status (fun s t => t.status == s) t
    && (optHolds f.transaction_type (fun ty t => t.transaction_type == ty) t
    && (optHolds f.payee_id (fun p t => t.payee_id == some p) t
    && (optHolds f.category_id (fun c t => t.category_id == some c) t
    && optHolds f.account_id (fun a t => t.account_id == a) t)))))

/-- An account matches a list query iff it satisfies every supplied
    filter. -/
def accountListMatchB (f : AccountListFilters) (a : Account) : Bool :=
  optHolds f.is_closed (fun b r => r.is_closed == b) a
    && (optHolds f.currency_code (fun c r => r.currency_code == c) a
    && optHolds f.account_type_id (fun ty r => r.account_type_id == ty) a)

/-- A category matches a list query iff it satisfies every supplied
    filter. -/
def categoryListMatchB (f : CategoryListFilters) (c : Category) : Bool :=
  optHolds f.is_active (fun b r => r.is_active == b) c
    && (optHolds f.category_group (fun g r => r.category_group == some g) c
    && optHolds f.category_type (fun ty r => r.category_type == ty) c)

/-- A payee matches a list query iff it satisfies the `is_active` filter
    when supplied. -/
def payeeListMatchB (is_active : Option Bool) (p : Payee) : Bool :=
  optHolds is_active (fun b r => r.is_active == b) p

/-! ## Transfer exclusion -/

/-- The store with every transfer-typed transaction row removed. -/
def removeTransfers (db : Db) : Db :=
  { db with
    transactions :=
      db.transactions.filter (fun t => t.transaction_type != "transfer") }

/-! ## C10: selector-string totality -/

/-- Concrete store for the C10 dimension counterexample: two accounts with
    one expense each. -/
def dbSelectors : Db :=
  ⟨[⟨1, 1, "expense", 5000, "USD", 5000, ⟨2024, 1, 10⟩, "cleared", none,
     none, none, none, 1000000, none, none, none, 0, 0⟩,
    ⟨2, 2, "expense", 3000, "USD", 3000, ⟨2024, 1, 11⟩, "cleared", none,
     none, none, none, 1000000, none, none, none, 0, 0⟩],
   [⟨1, 1, "A1", "USD", 0, 0, none, none, none, false, none, ⟨2024, 1, 1⟩,
     0, 0⟩,
    ⟨2, 1, "A2", "USD", 0, 0, none, none, none, false, none, ⟨2024, 1, 1⟩,
     0, 0⟩],
   [], [], []⟩

/-- `BreakdownFilters` supplying only an account filter. -/
def bfAccountOnly : BreakdownFilters := ⟨none, none, none, some 1⟩

/-! ## C3: breakdown filter surface -/

/-- The projection from the summary filter surface onto the filters the
    breakdown source actually accepts (category and payee are dropped —
    the function has no such parameters). -/
def restrictToBreakdownFilters (f : SummaryFilters) : BreakdownFilters :=
  ⟨f.start_date, f.end_date, f.transaction_type, f.account_id⟩

/-- The converse embedding: breakdown arguments as summary filters with no
    category or payee filter supplied. -/
def embedBreakdownFilters (f : BreakdownFilters) : SummaryFilters :=
  ⟨f.start_date, f.end_date, f.transaction_type, none, f.account_id, none⟩

/-- Concrete store for the C3 counterexample: one account, two expenses on
    it with different payees. -/
def dbPayeeFilter : Db :=
  ⟨[⟨1, 1, "expense", 5000, "USD", 5000, ⟨2024, 1, 10⟩, "cleared", some 1,
     none, none, none, 1000000, none, none, none, 0, 0⟩,
    ⟨2, 1, "expense", 3000, "USD", 3000, ⟨2024, 1, 11⟩, "cleared", some 2,
     none, none, none, 1000000, none, none, none, 0, 0⟩],
   [⟨1, 1, "A", "USD", 0, 0, none, none, none, false, none, ⟨2024, 1, 1⟩,
     0, 0⟩],
   [], [], []⟩

/-- A summary filter set supplying only a payee filter. -/
def sfPayeeOnly : SummaryFilters := ⟨none, none, none, none, none, some 1⟩

/-! ## C1: update frame semantics -/

/-- Concrete store for the C1 counterexample: one category carrying a
    non-null group. -/
def dbDining : Db :=
  ⟨[], [], [⟨7, "Dining", "expense", some "Essentials", none, none, true,
    0⟩], [], []⟩

/-- A PUT body for category 7 that supplies only `category_name`. -/
def updDiningName : CategoryUpdate :=
  ⟨some (some "Dining out"), none, none, none, none, none⟩

theorem Date.ltB_irrefl (a : Date) : Date.ltB a a = false := by
  simp [Date.ltB]

theorem Date.ltB_trans {a b c : Date} (hab : Date.ltB a b = true)
    (hbc : Date.ltB b c = true) : Date.ltB a c = true := by
  rcases a with ⟨ay, am, ad⟩
  rcases b with ⟨by_, bm, bd⟩
  rcases c with ⟨cy, cm, cd⟩
  simp only [Date.ltB] at hab hbc ⊢
  split_ifs at hab hbc ⊢ <;> simp_all <;> omega

theorem Date.ltB_total {a b : Date} (h : a ≠ b) :
    Date.ltB a b = true ∨ Date.ltB b a = true := by
  rcases a with ⟨ay, am, ad⟩
  rcases b with ⟨by_, bm, bd⟩
  simp only [Date.ltB]
  by_cases h1 : ay = by_
  · by_cases h2 : am = bm
    · subst h1; subst h2
      have : ad ≠ bd := by intro hd; exact h (by simp [hd])
      simp; omega
    · subst h1; simp [h2, Ne.symm h2]
  · simp [h1, Ne.symm h1]

theorem Date.ltB_asymm {a b : Date} (hab : Date.ltB a b = true) :
    Date.ltB b a = false := by
  by_contra h
  have hba : Date.ltB b a = true := by
    cases hh : Date.ltB b a with
    | false => exact absurd hh h
    | true => rfl
  have := Date.ltB_trans hab hba
  rcases a with ⟨ay, am, ad⟩
  simp only [Date.ltB] at this
  simp at this

theorem optFilter_eq_filter {α β : Type} (l : List α) (o : Option β)
    (g : β → α → Bool) :
    optFilter l o g
      = l.filter (fun a => match o with | some b => g b a | none => true) := by
  cases o <;> simp [optFilter]

theorem sqlSumInt_getD (l : List Int) : (sqlSumInt l).getD 0 = l.sum := by
  cases l <;> simp [sqlSumInt]

theorem sqlSumInt_ne_none {l : List Int} (h : l ≠ []) :
    sqlSumInt l = some l.sum := by
  cases l with
  | nil => exact absurd rfl h
  | cons a t => simp [sqlSumInt]

theorem mem_insertPeriod {a p : Date} {l : List Date} :
    a ∈ insertPeriod p l ↔ a = p ∨ a ∈ l := by
  induction l with
  | nil => simp [insertPeriod]
  | cons q rest ih =>
    simp only [insertPeriod]
    split_ifs with h1 h2
    · subst h1; constructor
      · intro h; exact Or.inr h
      · rintro (h | h)
        · simp [h]
        · exact h
    · simp [List.mem_cons]
    · simp only [List.mem_cons, ih]; tauto

theorem pairwise_insertPeriod {p : Date} {l : List Date}
    (hl : l.Pairwise (fun a b => Date.ltB a b = true)) :
    (insertPeriod p l).Pairwise (fun a b => Date.ltB a b = true) := by
  induction l with
  | nil => simp [insertPeriod]
  | cons q rest ih =>
    rcases List.pairwise_cons.mp hl with ⟨hq, hrest⟩
    simp only [insertPeriod]
    split_ifs with h1 h2
    · exact hl
    · refine List.pairwise_cons.mpr ⟨?_, hl⟩
      intro b hb
      rcases List.mem_cons.mp hb with hb | hb
      · subst hb; exact h2
      · exact Date.ltB_trans h2 (hq b hb)
    · refine List.pairwise_cons.mpr ⟨?_, ih hrest⟩
      intro b hb
      rcases mem_insertPeriod.mp hb with hb | hb
      · subst hb
        rcases Date.ltB_total (fun he => h1 he.symm) with h | h
        · exact h
        · exact absurd h (by simp [h2])
      · exact hq b hb

theorem mem_sortedPeriods {a : Date} {l : List Date} :
    a ∈ sortedPeriods l ↔ a ∈ l := by
  induction l with
  | nil => simp [sortedPeriods]
  | cons p rest ih =>
    simp only [sortedPeriods, List.foldr_cons] at *
    rw [mem_insertPeriod, ih]
    simp

theorem pairwise_sortedPeriods (l : List Date) :
    (sortedPeriods l).Pairwise (fun a b => Date.ltB a b = true) := by
  induction l with
  | nil => simp [sortedPeriods]
  | cons p rest ih =>
    simpa [sortedPeriods] using pairwise_insertPeriod (p := p) ih

theorem applySummaryFilters_eq (rows : List Transaction)
    (f : SummaryFilters) :
    applySummaryFilters rows f = rows.filter (summaryMatchB f) := by
  unfold applySummaryFilters
  simp only [optFilter_eq_filter, List.filter_filter]
  rcases f with ⟨sd, ed, ty, ci, ai, pi⟩
  cases sd <;> cases ed <;> cases ty <;> cases ci <;> cases ai <;> cases pi
    <;> rfl

theorem applyTrendFilters_eq (rows : List Transaction) (f : TrendFilters) :
    applyTrendFilters rows f = rows.filter (trendMatchB f) := by
  unfold applyTrendFilters
  simp only [optFilter_eq_filter, List.filter_filter]
  rcases f with ⟨sd, ed, ty, ci, ai⟩
  cases sd <;> cases ed <;> cases ty <;> cases ci <;> cases ai <;> rfl

theorem applyTransactionListFilters_eq (rows : List Transaction)
    (f : TransactionListFilters) :
    applyTransactionListFilters rows f = rows.filter (txnListMatchB f) := by
  unfold applyTransactionListFilters
  simp only [optFilter_eq_filter, List.filter_filter]
  rcases f with ⟨a, c, p, ty, st, sd, ed⟩
  cases a <;> cases c <;> cases p <;> cases ty <;> cases st <;> cases sd <;>
    cases ed <;> rfl

theorem applyAccountListFilters_eq (rows : List Account)
    (f : AccountListFilters) :
    applyAccountListFilters rows f = rows.filter (accountListMatchB f) := by
  unfold applyAccountListFilters
  simp only [optFilter_eq_filter, List.filter_filter]
  rcases f with ⟨ty, c, b⟩
  cases ty <;> cases c <;> cases b <;> rfl

theorem applyCategoryListFilters_eq (rows : List Category)
    (f : CategoryListFilters) :
    applyCategoryListFilters rows f = rows.filter (categoryListMatchB f) := by
  unfold applyCategoryListFilters
  simp only [optFilter_eq_filter, List.filter_filter]
  rcases f with ⟨ty, g, b⟩
  cases ty <;> cases g <;> cases b <;> rfl

theorem payeeListFilter_eq (rows : List Payee) (is_active : Option Bool) :
    optFilter rows is_active (fun b r => r.is_active == b)
      = rows.filter (payeeListMatchB is_active) := by
  cases is_active with
  | none => exact (List.filter_eq_self.mpr (fun a _ => rfl)).symm
  | some b => rfl

/-- Filtering the driving rows of a join commutes with filtering the joined
    pairs on their transaction component, because every pair a row produces
    carries that row as its first component. -/
theorem filter_flatMap_fst {α β : Type} (l : List α) (p : α → Bool)
    (g : α → List (α × β)) (hg : ∀ t r, r ∈ g t → r.1 = t) :
    (l.filter p).flatMap g = (l.flatMap g).filter (fun r => p r.1) := by
  induction l with
  | nil => rfl
  | cons t tl ih =>
    cases hp : p t with
    | true =>
      rw [List.filter_cons_of_pos hp]
      simp only [List.flatMap_cons, List.filter_append, ih]
      congr 1
      exact (List.filter_eq_self.mpr (fun r hr => by
        rw [hg t r hr]; exact hp)).symm
    | false =>
      rw [List.filter_cons_of_neg (by simp [hp])]
      simp only [List.flatMap_cons, List.filter_append, ih]
      have hnil : List.filter (fun r => p r.1) (g t) = [] :=
        List.filter_eq_nil_iff.mpr (fun r hr => by
          rw [hg t r hr]; simp [hp])
      rw [hnil]
      rfl

theorem joinRows_removeTransfers (db : Db) (dimension : String) :
    joinRows (removeTransfers db) dimension
      = (joinRows db dimension).filter
          (fun r => r.1.transaction_type != "transfer") := by
  unfold joinRows removeTransfers
  split_ifs <;>
    exact filter_flatMap_fst _ _ _ (by
      intro t r hr
      simp only [List.mem_map] at hr
      rcases hr with ⟨x, _, rfl⟩
      rfl)

theorem applyBreakdownFilters_filter_base
    (rows : List (Transaction × String)) (dimension : String)
    (f : BreakdownFilters) :
    applyBreakdownFilters
        (rows.filter (fun r => r.1.transaction_type != "transfer"))
        dimension f
      = applyBreakdownFilters rows dimension f := by
  unfold applyBreakdownFilters
  simp only [List.filter_filter, Bool.and_self]

/-! ## Characterizations of the update loops -/

/-- A projection no single loop step can change is unchanged by the whole
    `setattr` loop. -/
theorem foldl_preserve {σ A β : Type} (f : σ → A → σ) (g : σ → β)
    (h : ∀ s a, g (f s a) = g s) :
    ∀ (l : List A) (s : σ), g (l.foldl f s) = g s := by
  intro l
  induction l with
  | nil => intro s; rfl
  | cons a tl ih => intro s; rw [List.foldl_cons, ih, h]

theorem update_category_apply_true (c : Category) (u : CategoryUpdate) :
    update_category_apply c u true =
      ⟨c.category_id,
       (match u.category_name with | some v => v | none => some c.category_name),
       (match u.category_type with | some v => v | none => some c.category_type),
       (match u.category_group with | some v => v | none => c.category_group),
       (match u.color_code with | some v => v | none => c.color_code),
       (match u.icon_name with | some v => v | none => c.icon_name),
       (match u.is_active with | some v => v | none => some c.is_active),
       c.created_at⟩ := by
  rcases u with ⟨f1, f2, f3, f4, f5, f6⟩
  cases f1 <;> cases f2 <;> cases f3 <;> cases f4 <;> cases f5 <;> cases f6
    <;> rfl

theorem update_category_apply_false (c : Category) (u : CategoryUpdate) :
    update_category_apply c u false =
      ⟨c.category_id, u.category_name.join, u.category_type.join,
       u.category_group.join, u.color_code.join, u.icon_name.join,
       u.is_active.join, c.created_at⟩ := by
  rfl

theorem update_payee_apply_true (p : Payee) (u : PayeeUpdate) :
    update_payee_apply p u true =
      ⟨p.payee_id,
       (match u.payee_name with | some v => v | none => some p.payee_name),
       (match u.default_category_id with
         | some v => v | none => p.default_category_id),
       (match u.notes with | some v => v | none => p.notes),
       (match u.is_active with | some v => v | none => some p.is_active),
       p.created_at, p.updated_at⟩ := by
  rcases u with ⟨f1, f2, f3, f4⟩
  cases f1 <;> cases f2 <;> cases f3 <;> cases f4 <;> rfl

theorem update_payee_apply_false (p : Payee) (u : PayeeUpdate) :
    update_payee_apply p u false =
      ⟨p.payee_id, u.payee_name.join, u.default_category_id.join,
       u.notes.join, u.is_active.join, p.created_at, p.updated_at⟩ := by
  rfl

theorem update_account_apply_true (a : Account) (u : AccountUpdate) :
    update_account_apply a u true =
      ⟨a.account_id,
       (match u.account_type_id with | some v => v | none => some a.account_type_id),
       (match u.account_name with | some v => v | none => some a.account_name),
       (match u.currency_code with | some v => v | none => some a.currency_code),
       a.opening_balance, a.current_balance,
       (match u.account_number with | some v => v | none => a.account_number),
       (match u.institution_name with | some v => v | none => a.institution_name),
       (match u.credit_limit with | some v => v | none => a.credit_limit),
       (match u.is_closed with | some v => v | none => some a.is_closed),
       (match u.notes with | some v => v | none => a.notes),
       a.opening_balance_date, a.created_at, a.updated_at⟩ := by
  rcases u with ⟨f1, f2, f3, f4, f5, f6, f7, f8⟩
  cases f1 <;> cases f2 <;> cases f3 <;> cases f4 <;> cases f5 <;> cases f6
    <;> cases f7 <;> cases f8 <;> rfl

/-- No `AccountAssign` step writes `opening_balance`. -/
theorem setattr_opening_balance (s : AccountState) (x : AccountAssign) :
    (AccountState.setattr s x).opening_balance = s.opening_balance := by
  cases x <;> rfl

/-- No `AccountAssign` step writes `current_balance`. -/
theorem setattr_current_balance (s : AccountState) (x : AccountAssign) :
    (AccountState.setattr s x).current_balance = s.current_balance := by
  cases x <;> rfl

/-- No `AccountAssign` step writes `opening_balance_date`. -/
theorem setattr_opening_balance_date (s : AccountState) (x : AccountAssign) :
    (AccountState.setattr s x).opening_balance_date
      = s.opening_balance_date := by
  cases x <;> rfl

/-! ## Claim theorems -/

/-- C2: for every store state and every combination of supplied optional
    filters, the summary, breakdown and trend aggregations ignore all
    transaction rows whose type is `transfer`: each result over the full
    store equals the result over the store with every transfer row
    removed. -/
theorem transfer_rows_never_contribute_to_analytics :
    ∀ (db : Db) (fs : SummaryFilters) (dimension metric : String)
      (fb : BreakdownFilters) (time_grain : String) (ft : TrendFilters),
      get_summary db fs = get_summary (removeTransfers db) fs
      ∧ get_breakdown db dimension metric fb
          = get_breakdown (removeTransfers db) dimension metric fb
      ∧ get_trend db time_grain ft
          = get_trend (removeTransfers db) time_grain ft := by
  intro db fs dimension metric fb time_grain ft
  refine ⟨?_, ?_, ?_⟩
  · unfold get_summary
    have hrows : applySummaryFilters (removeTransfers db).transactions fs
        = applySummaryFilters db.transactions fs := by
      rw [applySummaryFilters_eq, applySummaryFilters_eq]
      simp only [removeTransfers, List.filter_filter]
      refine List.filter_congr ?_
      intro t _
      cases hb : (t.transaction_type != "transfer") <;>
        simp [summaryMatchB, hb]
    rw [hrows]
  · unfold get_breakdown
    rw [joinRows_removeTransfers, applyBreakdownFilters_filter_base]
  · unfold get_trend
    have hrows : applyTrendFilters (removeTransfers db).transactions ft
        = applyTrendFilters db.transactions ft := by
      rw [applyTrendFilters_eq, applyTrendFilters_eq]
      simp only [removeTransfers, List.filter_filter]
      refine List.filter_congr ?_
      intro t _
      cases hb : (t.transaction_type != "transfer") <;>
        simp [trendMatchB, hb]
    rw [hrows]

/-- C4: the `GET /schema/tables` handler calls the nonexistent
    `schema_service.get_table_names`; the resulting `AttributeError` is
    caught by the generic handler, so the endpoint answers 500
    `INTERNAL_ERROR` for every store state and never the table-name
    list. -/
theorem schema_tables_endpoint_always_internal_error :
    ∀ db : Db,
      get_table_names_endpoint db = HttpResult.error 500 "INTERNAL_ERROR" := by
  intro db
  rfl

/-- C5: for every store state and filter combination, the summary is the
    pair of the sum of `base_amount` over the matching non-transfer rows
    (an empty sum being zero) and the number of those rows. -/
theorem summary_is_filtered_sum_and_count :
    ∀ (db : Db) (f : SummaryFilters),
      get_summary db f
        = (((db.transactions.filter (summaryMatchB f)).map
              (·.base_amount)).sum,
           (db.transactions.filter (summaryMatchB f)).length) := by
  intro db f
  unfold get_summary
  rw [applySummaryFilters_eq]
  simp only [sqlSumInt_getD]

theorem update_account_apply_opening_balance (a : Account)
    (u : AccountUpdate) (excludeUnset : Bool) :
    (update_account_apply a u excludeUnset).opening_balance
      = a.opening_balance :=
  foldl_preserve AccountState.setattr (·.opening_balance)
    setattr_opening_balance _ _

theorem update_account_apply_current_balance (a : Account)
    (u : AccountUpdate) (excludeUnset : Bool) :
    (update_account_apply a u excludeUnset).current_balance
      = a.current_balance :=
  foldl_preserve AccountState.setattr (·.current_balance)
    setattr_current_balance _ _

theorem update_account_apply_opening_balance_date (a : Account)
    (u : AccountUpdate) (excludeUnset : Bool) :
    (update_account_apply a u excludeUnset).opening_balance_date
      = a.opening_balance_date :=
  foldl_preserve AccountState.setattr (·.opening_balance_date)
    setattr_opening_balance_date _ _

/-- C8: no update of an account — PUT or PATCH, any request body, either
    value of the dump flag — changes `opening_balance`, `current_balance`
    or `opening_balance_date`: after `update_account` each of the three
    equals the stored row's value (and an absent row stays absent). -/
theorem account_update_preserves_balance_fields :
    ∀ (db : Db) (account_id : Nat) (u : AccountUpdate)
      (excludeUnset : Bool),
      ((update_account db account_id u excludeUnset).map
          AccountState.opening_balance
        = (db.accounts.find? (fun a => a.account_id == account_id)).map
            Account.opening_balance)
      ∧ ((update_account db account_id u excludeUnset).map
          AccountState.current_balance
        = (db.accounts.find? (fun a => a.account_id == account_id)).map
            Account.current_balance)
      ∧ ((update_account db account_id u excludeUnset).map
          AccountState.opening_balance_date
        = (db.accounts.find? (fun a => a.account_id == account_id)).map
            Account.opening_balance_date) := by
  intro db account_id u excludeUnset
  unfold update_account
  cases h : db.accounts.find? (fun a => a.account_id == account_id) with
  | none => simp
  | some a =>
    simp [update_account_apply_opening_balance,
      update_account_apply_current_balance,
      update_account_apply_opening_balance_date]

/-- C9: a transaction-list request whose sort field is outside the
    allow-list {transaction_date, amount, created_at} is answered with the
    constant 400 `VALIDATION_ERROR` response — independent of the store, so
    no list query runs, and in particular never a 500. -/
theorem invalid_sort_rejected_with_400 :
    ∀ (db : Db) (f : TransactionListFilters) (sort order : String)
      (limit offset : Nat),
      sort ∉ valid_sort_fields →
      list_transactions_endpoint db f sort order limit offset
        = HttpResult.error 400 "VALIDATION_ERROR" := by
  intro db f sort order limit offset h
  simp [list_transactions_endpoint, h]

/-- Concrete instance of C9: sorting by `transaction_id` is rejected. -/
theorem invalid_sort_rejected_with_400_witness :
    "transaction_id" ∉ valid_sort_fields
    ∧ list_transactions_endpoint ⟨[], [], [], [], []⟩
        ⟨none, none, none, none, none, none, none⟩ "transaction_id" "desc"
        50 0
      = HttpResult.error 400 "VALIDATION_ERROR" :=
  ⟨by decide,
   invalid_sort_rejected_with_400 ⟨[], [], [], [], []⟩
     ⟨none, none, none, none, none, none, none⟩ "transaction_id" "desc"
     50 0 (by decide)⟩

/-- C7: for every entity list operation, store state and filter set, the
    reported total equals the size of the full filtered set before
    pagination, and is therefore identical for all limit/offset values. -/
theorem list_total_is_prepagination_filtered_count :
    (∀ (db : Db) (limit offset : Nat) (f : AccountListFilters),
        (list_accounts db limit offset f).2
          = (db.accounts.filter (accountListMatchB f)).length)
    ∧ (∀ (db : Db) (f : AccountListFilters) (l₁ o₁ l₂ o₂ : Nat),
        (list_accounts db l₁ o₁ f).2 = (list_accounts db l₂ o₂ f).2)
    ∧ (∀ (db : Db) (limit offset : Nat) (f : CategoryListFilters),
        (list_categories db limit offset f).2
          = (db.categories.filter (categoryListMatchB f)).length)
    ∧ (∀ (db : Db) (f : CategoryListFilters) (l₁ o₁ l₂ o₂ : Nat),
        (list_categories db l₁ o₁ f).2 = (list_categories db l₂ o₂ f).2)
    ∧ (∀ (db : Db) (limit offset : Nat) (is_active : Option Bool),
        (list_payees db limit offset is_active).2
          = (db.payees.filter (payeeListMatchB is_active)).length)
    ∧ (∀ (db : Db) (is_active : Option Bool) (l₁ o₁ l₂ o₂ : Nat),
        (list_payees db l₁ o₁ is_active).2
          = (list_payees db l₂ o₂ is_active).2)
    ∧ (∀ (db : Db) (f : TransactionListFilters) (sort order : String)
         (limit offset : Nat),
        (list_transactions db f sort order limit offset).2
          = (db.transactions.filter (txnListMatchB f)).length)
    ∧ (∀ (db : Db) (f : TransactionListFilters) (sort order : String)
         (l₁ o₁ l₂ o₂ : Nat),
        (list_transactions db f sort order l₁ o₁).2
          = (list_transactions db f sort order l₂ o₂).2) := by
  have hacc : ∀ (db : Db) (limit offset : Nat) (f : AccountListFilters),
      (list_accounts db limit offset f).2
        = (db.accounts.filter (accountListMatchB f)).length := by
    intro db limit offset f
    unfold list_accounts
    rw [applyAccountListFilters_eq]
  have hcat : ∀ (db : Db) (limit offset : Nat) (f : CategoryListFilters),
      (list_categories db limit offset f).2
        = (db.categories.filter (categoryListMatchB f)).length := by
    intro db limit offset f
    unfold list_categories
    rw [applyCategoryListFilters_eq]
  have hpay : ∀ (db : Db) (limit offset : Nat) (is_active : Option Bool),
      (list_payees db limit offset is_active).2
        = (db.payees.filter (payeeListMatchB is_active)).length := by
    intro db limit offset is_active
    unfold list_payees
    rw [payeeListFilter_eq]
  have htxn : ∀ (db : Db) (f : TransactionListFilters) (sort order : String)
      (limit offset : Nat),
      (list_transactions db f sort order limit offset).2
        = (db.transactions.filter (txnListMatchB f)).length := by
    intro db f sort order limit offset
    unfold list_transactions
    rw [applyTransactionListFilters_eq]
  exact ⟨hacc,
    fun db f l₁ o₁ l₂ o₂ => by rw [hacc, hacc],
    hcat,
    fun db f l₁ o₁ l₂ o₂ => by rw [hcat, hcat],
    hpay,
    fun db b l₁ o₁ l₂ o₂ => by rw [hpay, hpay],
    htxn,
    fun db f sort order l₁ o₁ l₂ o₂ => by rw [htxn, htxn]⟩

/-- C6: for every store state, time grain and filter combination, the trend
    is described by a list of period dates: the first component is their
    ISO-8601 strings, strictly ascending chronologically; the second the
    per-period sums of `base_amount` over the matching non-transfer rows;
    and a period occurs exactly when some matching row truncates to it —
    empty periods are absent, not zero-valued. -/
theorem trend_is_sparse_ascending_period_sums :
    ∀ (db : Db) (time_grain : String) (f : TrendFilters),
      ∃ ps : List Date,
        (get_trend db time_grain f).1 = ps.map Date.iso
        ∧ (get_trend db time_grain f).2 = ps.map (fun p =>
            (((db.transactions.filter (trendMatchB f)).filter
               (fun t => truncateGrain time_grain t.transaction_date == p)).map
                 (·.base_amount)).sum)
        ∧ ps.Pairwise (fun a b => Date.ltB a b = true)
        ∧ (∀ p : Date, p ∈ ps ↔
            ∃ t ∈ db.transactions.filter (trendMatchB f),
              truncateGrain time_grain t.transaction_date = p) := by
  intro db time_grain f
  refine ⟨sortedPeriods ((db.transactions.filter (trendMatchB f)).map
    (fun t => truncateGrain time_grain t.transaction_date)), ?_, ?_, ?_, ?_⟩
  · unfold get_trend
    rw [applyTrendFilters_eq]
  · unfold get_trend
    rw [applyTrendFilters_eq]
    simp only []
    congr 1
    funext p
    rw [sqlSumInt_getD]
  · exact pairwise_sortedPeriods _
  · intro p
    rw [mem_sortedPeriods, List.mem_map]

/-- C10 as stated is false: with an account filter supplied, the
    out-of-range dimension string "merchant" is *not* treated as "account" —
    the filter applies for "merchant" (`dimension != "account"` holds) but
    is skipped for "account". -/
theorem unknown_dimension_not_account_counterexample :
    get_breakdown dbSelectors "merchant" "sum" bfAccountOnly
      ≠ get_breakdown dbSelectors "account" "sum" bfAccountOnly := by
  decide

/-- C10 amended: the analytics selector dispatches are total with default
    branches — any metric other than "sum" aggregates as "count", any
    dimension outside {category, payee} joins and groups by account (and
    coincides with "account" whenever no account filter is supplied), and
    any time grain outside {day, week} truncates as "month".  The account
    filter's no-op test compares against the exact string "account", which
    is the sole deviation from the original claim. -/
theorem analytics_selectors_total_with_default_branches :
    (∀ (db : Db) (dimension metric : String) (f : BreakdownFilters),
        metric ≠ "sum" →
        get_breakdown db dimension metric f
          = get_breakdown db dimension "count" f)
    ∧ (∀ (db : Db) (dimension : String),
        dimension ≠ "category" → dimension ≠ "payee" →
        joinRows db dimension = joinRows db "account")
    ∧ (∀ (db : Db) (dimension metric : String) (f : BreakdownFilters),
        dimension ≠ "category" → dimension ≠ "payee" →
        f.account_id = none →
        get_breakdown db dimension metric f
          = get_breakdown db "account" metric f)
    ∧ (∀ (db : Db) (time_grain : String) (f : TrendFilters),
        time_grain ≠ "day" → time_grain ≠ "week" →
        get_trend db time_grain f = get_trend db "month" f) := by
  have hjoin : ∀ (db : Db) (dimension : String),
      dimension ≠ "category" → dimension ≠ "payee" →
      joinRows db dimension = joinRows db "account" := by
    intro db dimension h1 h2
    unfold joinRows
    simp [h1, h2]
  refine ⟨?_, hjoin, ?_, ?_⟩
  · intro db dimension metric f h
    unfold get_breakdown metricValue
    simp [h]
  · intro db dimension metric f h1 h2 hf
    unfold get_breakdown
    rw [hjoin db dimension h1 h2]
    unfold applyBreakdownFilters
    rw [hf]
    simp only [optFilter, ite_self]
  · intro db time_grain f h1 h2
    unfold get_trend truncateGrain
    simp [h1, h2]

/-- Concrete instances of every amended C10 conjunct. -/
theorem analytics_selectors_default_branches_witness :
    (get_breakdown dbSelectors "category" "avg" ⟨none, none, none, none⟩
      = get_breakdown dbSelectors "category" "count"
          ⟨none, none, none, none⟩)
    ∧ joinRows dbSelectors "merchant" = joinRows dbSelectors "account"
    ∧ (get_breakdown dbSelectors "merchant" "sum" ⟨none, none, none, none⟩
      = get_breakdown dbSelectors "account" "sum" ⟨none, none, none, none⟩)
    ∧ get_trend dbSelectors "year" ⟨none, none, none, none, none⟩
      = get_trend dbSelectors "month" ⟨none, none, none, none, none⟩ :=
  ⟨analytics_selectors_total_with_default_branches.1 dbSelectors "category"
     "avg" ⟨none, none, none, none⟩ (by decide),
   analytics_selectors_total_with_default_branches.2.1 dbSelectors
     "merchant" (by decide) (by decide),
   analytics_selectors_total_with_default_branches.2.2.1 dbSelectors
     "merchant" "sum" ⟨none, none, none, none⟩ (by decide) (by decide) rfl,
   analytics_selectors_total_with_default_branches.2.2.2 dbSelectors "year"
     ⟨none, none, none, none, none⟩ (by decide) (by decide)⟩

/-- C3 as stated is false: the breakdown source accepts no payee (or
    category) filter at all, so on a store where a supplied payee filter
    matters the code's result differs from the spec-described operation. -/
theorem breakdown_missing_payee_filter_counterexample :
    get_breakdown dbPayeeFilter "account" "sum"
        (restrictToBreakdownFilters sfPayeeOnly)
      ≠ get_breakdown_spec dbPayeeFilter "account" "sum" sfPayeeOnly := by
  decide

/-- C3 amended: breakdown accepts only the optional filters {date range,
    transaction type, account} — a strict subset of summary's filter set,
    with no category or payee filter — and supplying the account filter
    when the chosen dimension is account is a no-op; on its accepted filter
    surface the code agrees with the spec-described operation. -/
theorem breakdown_filter_surface_and_account_noop :
    (∀ (db : Db) (metric : String) (f : BreakdownFilters) (a : Nat),
        get_breakdown db "account" metric
            { f with account_id := some a }
          = get_breakdown db "account" metric { f with account_id := none })
    ∧ (∀ (db : Db) (dimension metric : String) (f : BreakdownFilters),
        get_breakdown db dimension metric f
          = get_breakdown_spec db dimension metric
              (embedBreakdownFilters f)) := by
  constructor
  · intro db metric f a
    rcases f with ⟨sd, ed, ty, ai⟩
    rfl
  · intro db dimension metric f
    unfold get_breakdown get_breakdown_spec applyBreakdownFilters
      embedBreakdownFilters
    split_ifs <;> rfl

/-- C1 as stated is false: `PUT /categories/{id}` runs the update with
    `exclude_unset=False`, so the omitted `category_group` is overwritten
    with the schema default `None` instead of keeping its prior value
    "Essentials". -/
theorem put_category_resets_omitted_field_counterexample :
    (update_category_put dbDining 7 updDiningName).map
        CategoryState.category_group
      ≠ (dbDining.categories.find? (fun c => c.category_id == 7)).map
          (fun c => c.category_group) := by
  decide

/-- C1 amended: updates are frame-exact per entity and verb as the code
    wires them.  For accounts, PUT and PATCH are the same operation and
    apply exactly the fields present in the body, omitted fields keeping
    their prior values; PATCH on categories and payees does the same; but
    PUT on categories and payees dumps every schema field, so each omitted
    field is overwritten with its schema default `None`.  (Transactions
    expose no update endpoint at all.) -/
theorem update_frame_semantics_per_entity_and_verb :
    (∀ (db : Db) (i : Nat) (u : AccountUpdate),
        update_account_put db i u = update_account_patch db i u)
    ∧ (∀ (a : Account) (u : AccountUpdate),
        update_account_apply a u true =
          ⟨a.account_id,
           (match u.account_type_id with
             | some v => v | none => some a.account_type_id),
           (match u.account_name with
             | some v => v | none => some a.account_name),
           (match u.currency_code with
             | some v => v | none => some a.currency_code),
           a.opening_balance, a.current_balance,
           (match u.account_number with
             | some v => v | none => a.account_number),
           (match u.institution_name with
             | some v => v | none => a.institution_name),
           (match u.credit_limit with
             | some v => v | none => a.credit_limit),
           (match u.is_closed with
             | some v => v | none => some a.is_closed),
           (match u.notes with | some v => v | none => a.notes),
           a.opening_balance_date, a.created_at, a.updated_at⟩)
    ∧ (∀ (c : Category) (u : CategoryUpdate),
        update_category_apply c u true =
          ⟨c.category_id,
           (match u.category_name with
             | some v => v | none => some c.category_name),
           (match u.category_type with
             | some v => v | none => some c.category_type),
           (match u.category_group with
             | some v => v | none => c.category_group),
           (match u.color_code with | some v => v | none => c.color_code),
           (match u.icon_name with | some v => v | none => c.icon_name),
           (match u.is_active with
             | some v => v | none => some c.is_active),
           c.created_at⟩)
    ∧ (∀ (c : Category) (u : CategoryUpdate),
        update_category_apply c u false =
          ⟨c.category_id, u.category_name.join, u.category_type.join,
           u.category_group.join, u.color_code.join, u.icon_name.join,
           u.is_active.join, c.created_at⟩)
    ∧ (∀ (p : Payee) (u : PayeeUpdate),
        update_payee_apply p u true =
          ⟨p.payee_id,
           (match u.payee_name with
             | some v => v | none => some p.payee_name),
           (match u.default_category_id with
             | some v => v | none => p.default_category_id),
           (match u.notes with | some v => v | none => p.notes),
           (match u.is_active with
             | some v => v | none => some p.is_active),
           p.created_at, p.updated_at⟩)
    ∧ (∀ (p : Payee) (u : PayeeUpdate),
        update_payee_apply p u false =
          ⟨p.payee_id, u.payee_name.join, u.default_category_id.join,
           u.notes.join, u.is_active.join, p.created_at, p.updated_at⟩) :=
  ⟨fun _ _ _ => rfl, update_account_apply_true, update_category_apply_true,
   update_category_apply_false, update_payee_apply_true,
   update_payee_apply_false⟩

end ExpenseTracker
